import Mathlib

/-!
Shallow embedding of the sinkr deployment engine (apps/deployment/src):
the store schema (db/schema.ts), the source request handler `handleSource`
(server.ts), and the WebSocket hooks `message` / `close` (hooks.ts).

Conventions of the embedding:
* database tables are lists of rows; `findFirst` is `List.find?`,
  `findMany` is `List.filter`, drizzle inner joins are `filterMap` over the
  left table with `find?` into the right table (primary keys are unique);
* `ORDER BY createdAt ASC` is modelled by `List.insertionSort`;
* inserts into tables with a violated PRIMARY KEY / UNIQUE index raise,
  modelled by `Except.error` (D1 raises and drizzle re-throws);
* the fresh uuid `v7()` is passed in as an explicit `freshId` argument;
* `CURRENT_TIMESTAMP` is passed in as `now : Nat`;
* the in-memory crossws peer map (`getPeerMap`) is the list `live` of the
  peer ids whose sockets are open on this worker; a `sendToPeer` is recorded
  as a `Delivery` (recipient peer id paired with the outbound frame);
* `getCoordinator()` is `coord : Option (List Resp)`: `none` on a worker
  shard, and on the coordinator `some shardResponses` where
  `shardResponses` is the list of per-shard responses that
  `coordInst.distribute` returns (the coordinator durable object itself is
  outside this embedding; only the aggregation in server.ts is modelled).
-/

inductive PeerType
  | source
  | sink
deriving DecidableEq, Repr

/-- `channel.auth` ∈ {"public", "private", "presence"}; "private" is spelled
`priv` because `private` is a Lean keyword. -/
inductive AuthMode
  | public
  | priv
  | presence
deriving DecidableEq, Repr

/-- `MessageTypeSchema`: `{type: "plain", message}` or
`{type: "chunk", index, message}`; the payload is opaque. -/
inductive MessageType
  | plain (message : String)
  | chunk (index : Nat) (message : String)
deriving DecidableEq, Repr

/-- A row of the `peer` table. -/
structure DBPeer where
  id : String
  appId : String
  type : PeerType
  authenticatedUserId : Option String
  userInfo : Option String
deriving DecidableEq, Repr

/-- A row of the `channel` table. -/
structure Channel where
  id : String
  appId : String
  name : String
  auth : AuthMode
  store : Bool
deriving DecidableEq, Repr

/-- A row of the `peerChannelSubscription` table. -/
structure Subscription where
  id : String
  appId : String
  peerId : String
  channelId : String
deriving DecidableEq, Repr

/-- The `request` body of `channel.messages.send`
(`ChannelMessagesSendRequestSchema["request"]`), which is also the payload
stored verbatim in the `data` column of `storedChannelMessages`. -/
structure SendData where
  channelId : String
  event : String
  message : MessageType
deriving DecidableEq, Repr

/-- A row of the `storedChannelMessages` table. -/
structure StoredMessage where
  id : String
  appId : String
  channelId : String
  createdAt : Nat
  data : SendData
deriving DecidableEq, Repr

/-- The D1 database state (the `app` table is not needed by the routes
modelled here: it is only consulted on upgrade/open). -/
structure DB where
  peers : List DBPeer
  channels : List Channel
  peerChannelSubscriptions : List Subscription
  storedChannelMessages : List StoredMessage
deriving DecidableEq, Repr

/-- A `{id, userInfo?}` member entry of join/leave metadata frames. -/
structure ChannelMember where
  id : String
  userInfo : Option String
deriving DecidableEq, Repr

/-- Route response union: `{success: true}` or `{success: false, error}`. -/
structure Resp where
  success : Bool
  error : Option String
deriving DecidableEq, Repr

/-- Server → sink metadata events (discriminated by `event`). -/
inductive MetadataEvent
  | init (peerId : String)
  | joinChannel (channelId : String) (channelAuthMode : AuthMode)
      (channelName : String) (channelStoredMessages : List (String × Nat))
      (members : List ChannelMember)
  | leaveChannel (channelId : String)
  | memberJoin (channelId : String) (member : ChannelMember)
  | memberLeave (channelId : String) (member : ChannelMember)
deriving DecidableEq, Repr

/-- The `from` discriminator of message frames. -/
inductive OriginField
  | broadcast
  | direct
  | channel (channelId : String)
deriving DecidableEq, Repr

/-- Everything the server writes to a socket: sink frames
(`{id, source: "metadata"|"message", data}`), the literal `"pong"`, and the
source-side replies (`{id, route, response}` / the 400 body). -/
inductive Outbound
  | metadata (id : String) (data : MetadataEvent)
  | message (id : String) (event : String) (origin : OriginField)
      (message : MessageType)
  | pong
  | reply (id : String) (resp : Resp)
  | badRequest (id : String)
deriving DecidableEq, Repr

/-- A frame written to a peer: recipient peer id × frame. -/
abbrev Delivery := String × Outbound

/-- The `ServerRequestSchema` union, restricted to the routes the claims
are about. -/
inductive Request
  | globalMessagesSend (event : String) (message : MessageType)
  | channelMessagesSend (channelId : String) (event : String)
      (message : MessageType)
  | userMessagesSend (recipientId : String) (event : String)
      (message : MessageType)
  | channelSubscribersAdd (subscriberId : String) (channelId : String)
  | channelSubscribersRemove (subscriberId : String) (channelId : String)
deriving DecidableEq, Repr

/-- Insert into `peerChannelSubscription`; the unique index `pcs_unique` on
`(appId, peerId, channelId)` makes a duplicate insert raise. -/
def insertSubscription (db : DB) (s : Subscription) : Except String DB :=
  if db.peerChannelSubscriptions.any (fun t =>
      t.appId == s.appId && t.peerId == s.peerId && t.channelId == s.channelId)
  then .error "UNIQUE constraint failed: peerChannelSubscription"
  else .ok { db with peerChannelSubscriptions := db.peerChannelSubscriptions ++ [s] }

/-- Insert into `storedChannelMessages`; `id` is the primary key, so a
duplicate id raises. -/
def insertStoredMessage (db : DB) (m : StoredMessage) : Except String DB :=
  if db.storedChannelMessages.any (fun t => t.id == m.id)
  then .error "UNIQUE constraint failed: storedChannelMessages"
  else .ok { db with storedChannelMessages := db.storedChannelMessages ++ [m] }

/-- `createdAt` ascending, the order used by every `orderBy asc(createdAt)`. -/
def createdAtLe (a b : StoredMessage) : Prop := a.createdAt ≤ b.createdAt

instance : DecidableRel createdAtLe := fun a b => Nat.decLe a.createdAt b.createdAt

instance : IsTotal StoredMessage createdAtLe :=
  ⟨fun a b => Nat.le_total a.createdAt b.createdAt⟩

instance : IsTrans StoredMessage createdAtLe :=
  ⟨fun _ _ _ h1 h2 => Nat.le_trans h1 h2⟩

/-- `ORDER BY createdAt ASC` over a filtered row list. -/
def sortByCreatedAt (l : List StoredMessage) : List StoredMessage :=
  List.insertionSort createdAtLe l

/-- The subscriber join used by `channel.subscribers.add` / `.remove`:
`select from peerChannelSubscriptions innerJoin peers on peers.id = sub.peerId
 where peers.appId = appId ∧ sub.channelId = channelId [∧ peers.id ≠ exclude]`,
returning the joined peer rows. -/
def joinedSubscribers (db : DB) (appId channelId : String)
    (exclude : Option String) : List DBPeer :=
  db.peerChannelSubscriptions.filterMap (fun s =>
    match db.peers.find? (fun p => p.id == s.peerId) with
    | some p =>
      if p.appId == appId && s.channelId == channelId &&
          (match exclude with
           | some e => p.id != e
           | none => true)
      then some p else none
    | none => none)

/-- `{id: peer.authenticatedUserId ?? peer.id,
     userInfo: auth === "presence" ? peer.userInfo : undefined}`. -/
def memberView (auth : AuthMode) (p : DBPeer) : ChannelMember :=
  { id := p.authenticatedUserId.getD p.id
    userInfo := if auth = AuthMode.presence then p.userInfo else none }

/-- `peer.id` or `authenticatedUserId` resolution used by
`channel.subscribers.add/remove` and `user.messages.send`. -/
def findPeerByEitherId (db : DB) (appId target : String) : Option DBPeer :=
  db.peers.find? (fun p =>
    p.appId == appId &&
      (p.authenticatedUserId == some target || p.id == target))

/-- server.ts `handleSource`, restricted to the modelled routes. Returns
the route response together with the updated database and the frames
pushed to local sinks. -/
def handleSource (coord : Option (List Resp)) (live : List String) (now : Nat)
    (freshId : String) (envId : String) (input : Request) (appId : String)
    (db : DB) : Except String (Resp × DB × List Delivery) :=
  match input with
  | .globalMessagesSend event message =>
    match coord with
    | some shardResponses =>
      let success := shardResponses.all (fun r => r.success)
      if success then .ok ({ success := true, error := none }, db, [])
      else .ok ({ success := false, error := some "Invalid request" }, db, [])
    | none =>
      let frames := live.filterMap (fun pid =>
        if db.peers.any (fun p => p.appId == appId && p.id == pid) then
          some (pid, Outbound.message envId event OriginField.broadcast message)
        else none)
      .ok ({ success := true, error := none }, db, frames)
  | .channelMessagesSend channelId event message =>
    match coord with
    | some shardResponses =>
      let success := shardResponses.all (fun r => r.success)
      if success then .ok ({ success := true, error := none }, db, [])
      else .ok ({ success := false, error := some "Invalid request" }, db, [])
    | none =>
      match db.channels.find? (fun c => c.id == channelId && c.appId == appId) with
      | none => .ok ({ success := false, error := some "Channel not found" }, db, [])
      | some ch =>
        let subscriptions := db.peerChannelSubscriptions.filter (fun s =>
          s.appId == appId && s.channelId == channelId)
        match (if ch.store then
                insertStoredMessage db
                  { id := envId, appId := appId, channelId := ch.id,
                    createdAt := now,
                    data := { channelId := channelId, event := event, message := message } }
               else .ok db) with
        | .error e => .error e
        | .ok db2 =>
          let frames := subscriptions.filterMap (fun s =>
            if live.contains s.peerId then
              some (s.peerId,
                Outbound.message envId event (OriginField.channel ch.id) message)
            else none)
          .ok ({ success := true, error := none }, db2, frames)
  | .userMessagesSend recipientId event message =>
    match coord with
    | some shardResponses =>
      let success := shardResponses.any (fun r => r.success)
      if success then .ok ({ success := true, error := none }, db, [])
      else .ok ({ success := false, error := some "Peer not found" }, db, [])
    | none =>
      match findPeerByEitherId db appId recipientId with
      | none => .ok ({ success := false, error := some "Peer not found" }, db, [])
      | some dbPeer =>
        if live.contains dbPeer.id then
          .ok ({ success := true, error := none }, db,
            [(dbPeer.id, Outbound.message envId event OriginField.direct message)])
        else
          .ok ({ success := false, error := some "Peer not found" }, db, [])
  | .channelSubscribersAdd subscriberId channelId =>
    match db.channels.find? (fun c => c.appId == appId && c.id == channelId) with
    | none => .ok ({ success := false, error := some "Channel not found" }, db, [])
    | some ch =>
      match findPeerByEitherId db appId subscriberId with
      | none => .ok ({ success := false, error := some "Peer not found" }, db, [])
      | some dbPeer =>
        if ch.auth = AuthMode.public ∧ dbPeer.authenticatedUserId = none then
          .ok ({ success := false, error := some "Peer not authenticated" }, db, [])
        else
          let existingSubs := joinedSubscribers db appId ch.id (some dbPeer.id)
          match coord with
          | some shardResponses =>
            match insertSubscription db
                { id := freshId, appId := appId, peerId := dbPeer.id,
                  channelId := ch.id } with
            | .error e => .error e
            | .ok db2 =>
              let success := shardResponses.all (fun r => r.success)
              if success then .ok ({ success := true, error := none }, db2, [])
              else .ok ({ success := false, error := some "Invalid request" }, db2, [])
          | none =>
            let chMessages := sortByCreatedAt
              (db.storedChannelMessages.filter (fun m => m.channelId == ch.id))
            let joinFrames : List Delivery :=
              if live.contains dbPeer.id then
                [(dbPeer.id, Outbound.metadata envId
                  (MetadataEvent.joinChannel ch.id ch.auth ch.name
                    (chMessages.map (fun m => (m.id, m.createdAt)))
                    (existingSubs.map (memberView ch.auth))))]
              else []
            let memberJoinFrames : List Delivery :=
              existingSubs.filterMap (fun p =>
                if live.contains p.id then
                  some (p.id, Outbound.metadata envId
                    (MetadataEvent.memberJoin ch.id (memberView ch.auth dbPeer)))
                else none)
            .ok ({ success := true, error := none }, db,
              joinFrames ++ memberJoinFrames)
  | .channelSubscribersRemove subscriberId channelId =>
    match db.channels.find? (fun c => c.appId == appId && c.id == channelId) with
    | none => .ok ({ success := false, error := some "Channel not found" }, db, [])
    | some ch =>
      match findPeerByEitherId db appId subscriberId with
      | none => .ok ({ success := false, error := some "Peer not found" }, db, [])
      | some dbPeer =>
        match coord with
        | some shardResponses =>
          match db.peerChannelSubscriptions.find? (fun s =>
              s.appId == appId && s.peerId == dbPeer.id && s.channelId == ch.id) with
          | none =>
            .ok ({ success := false, error := some "Peer is not subscribed to channel" }, db, [])
          | some isInChannel =>
            let db2 : DB := { db with
              peerChannelSubscriptions :=
                db.peerChannelSubscriptions.filter (fun s => s.id != isInChannel.id) }
            let success := shardResponses.all (fun r => r.success)
            if success then .ok ({ success := true, error := none }, db2, [])
            else .ok ({ success := false, error := some "Invalid request" }, db2, [])
        | none =>
          let remainingSubs := joinedSubscribers db appId ch.id none
          let leaveFrames : List Delivery :=
            if live.contains dbPeer.id then
              [(dbPeer.id, Outbound.metadata envId (MetadataEvent.leaveChannel ch.id))]
            else []
          let memberLeaveFrames : List Delivery :=
            remainingSubs.filterMap (fun p =>
              if live.contains p.id then
                some (p.id, Outbound.metadata envId
                  (MetadataEvent.memberLeave ch.id (memberView ch.auth dbPeer)))
              else none)
          .ok ({ success := true, error := none }, db,
            leaveFrames ++ memberLeaveFrames)

/-- hooks.ts `close`: enumerate the closing peer's subscriptions, delete the
peer row (`peerChannelSubscription.peerId` has `onDelete: "cascade"`), then
emit a `member-leave` to every remaining local subscriber of each channel the
peer was in. -/
def hooksClose (live : List String) (freshId : String) (db : DB)
    (pid : String) : DB × List Delivery :=
  let connectedChannels := db.peerChannelSubscriptions.filter (fun s => s.peerId == pid)
  let peerInfo := db.peers.find? (fun p => p.id == pid)
  let db2 : DB := { db with
    peers := db.peers.filter (fun p => p.id != pid)
    peerChannelSubscriptions :=
      db.peerChannelSubscriptions.filter (fun s => s.peerId != pid) }
  let channelIds := connectedChannels.map (fun s => s.channelId)
  let channelPeers := db2.peerChannelSubscriptions.filter (fun s =>
    channelIds.contains s.channelId)
  let frames := channelPeers.filterMap (fun s =>
    if live.contains s.peerId then
      some (s.peerId, Outbound.metadata freshId
        (MetadataEvent.memberLeave s.channelId
          { id := s.peerId
            userInfo :=
              if (db2.channels.find? (fun c => c.id == s.channelId)).map Channel.auth
                  == some AuthMode.presence
              then peerInfo.bind DBPeer.userInfo else none }))
    else none)
  (db2, frames)

/-- `ClientRequestStoredMessagesSchema`:
`{event: "request-stored-messages", channelId, messageIds}`. -/
structure StoredMessagesRequest where
  channelId : String
  messageIds : List String
deriving DecidableEq, Repr

/-- A source envelope `{id, data}`; `request` is the result of
`ServerRequestSchema.safeParse(body.data)`. -/
structure Envelope where
  id : String
  request : Option Request
deriving DecidableEq, Repr

/-- An inbound WebSocket text frame as the hook observes it:
`text` is `message.text()`; the two parse fields are the results of the
schema parses the hook may attempt on `message.json()` (`none` = parse
failure). -/
structure InboundFrame where
  text : String
  storedMessagesRequest : Option StoredMessagesRequest
  envelope : Option Envelope
deriving DecidableEq, Repr

/-- The stored-message query of the sink branch of hooks.ts `message`:
rows with the requested `channelId`, the requesting peer's own `appId`, and
`id ∈ messageIds`, ordered by `createdAt` ascending. -/
def replayStoredMessages (db : DB) (peerAppId channelId : String)
    (messageIds : List String) : List StoredMessage :=
  sortByCreatedAt (db.storedChannelMessages.filter (fun m =>
    m.channelId == channelId && m.appId == peerAppId && messageIds.contains m.id))

/-- The message frames the sink branch pushes back for a
`request-stored-messages` frame. -/
def replayFrames (db : DB) (peerAppId channelId : String)
    (messageIds : List String) : List Outbound :=
  (replayStoredMessages db peerAppId channelId messageIds).map (fun m =>
    Outbound.message m.id m.data.event (OriginField.channel m.data.channelId)
      m.data.message)

/-- hooks.ts `message`: answer a literal "ping" with "pong" first; then look
the peer up and run the sink branch (stored-message replay) or the source
branch (envelope parse + `handleSource` + correlated reply). -/
def hooksMessage (coord : Option (List Resp)) (live : List String) (now : Nat)
    (freshId : String) (db : DB) (peerId : String) (msg : InboundFrame) :
    Except String (DB × List Delivery) :=
  if msg.text == "ping" then
    .ok (db, [(peerId, Outbound.pong)])
  else
    match db.peers.find? (fun p => p.id == peerId) with
    | none => .ok (db, [])
    | some peerInfo =>
      if peerInfo.type = PeerType.sink then
        match msg.storedMessagesRequest with
        | none => .ok (db, [])
        | some req =>
          .ok (db, (replayFrames db peerInfo.appId req.channelId
            req.messageIds).map (fun f => (peerId, f)))
      else
        match msg.envelope with
        | none => .error "Invalid JSON body"
        | some body =>
          match body.request with
          | none => .ok (db, [(peerId, Outbound.badRequest body.id)])
          | some parsed =>
            match handleSource coord live now freshId body.id parsed
                peerInfo.appId db with
            | .error e => .error e
            | .ok (res, db2, frames) =>
              .ok (db2, frames ++ [(peerId, Outbound.reply body.id res)])

/-- The error enum the validators package declares for
`user.messages.send` responses
(`ALL_ROUTES["user.messages.send"].response`). -/
def userMessagesSendErrors : List String :=
  ["Invalid connection", "Invalid request", "Unknown error",
    "Recipient not found"]

/-- Does the delivery address peer `q` with a `member-leave` frame for
channel `c`? (Used to count the notifications `hooksClose` emits.) -/
def isMemberLeaveDeliveryTo (q c : String) : Delivery → Bool
  | (r, Outbound.metadata _ (MetadataEvent.memberLeave cid _)) =>
      r == q && cid == c
  | _ => false

/-- The `(peerId, channelId)` pairs of the subscription table are distinct,
the invariant the unique index `pcs_unique` maintains within one app. -/
def subscriptionPairsNodup (db : DB) : Prop :=
  (db.peerChannelSubscriptions.map (fun s => (s.peerId, s.channelId))).Nodup

/- Concrete states used to evaluate the handlers on the scenarios of the
individual claims. -/

/-- App "A" with a private channel and one unauthenticated sink peer. -/
def privateChannelState : DB :=
  { peers := [{ id := "p1", appId := "A", type := PeerType.sink,
                authenticatedUserId := none, userInfo := none }]
    channels := [{ id := "c1", appId := "A", name := "chan",
                   auth := AuthMode.priv, store := false }]
    peerChannelSubscriptions := []
    storedChannelMessages := [] }

/-- App "A" with a public channel and one unauthenticated sink peer. -/
def publicChannelState : DB :=
  { peers := [{ id := "p1", appId := "A", type := PeerType.sink,
                authenticatedUserId := none, userInfo := none }]
    channels := [{ id := "c1", appId := "A", name := "chan",
                   auth := AuthMode.public, store := false }]
    peerChannelSubscriptions := []
    storedChannelMessages := [] }

/-- App "A", private channel, authenticated peer already subscribed: the
state in which a second `channel.subscribers.add` arrives. -/
def duplicateSubscribeState : DB :=
  { peers := [{ id := "p1", appId := "A", type := PeerType.sink,
                authenticatedUserId := some "u1", userInfo := none }]
    channels := [{ id := "c1", appId := "A", name := "chan",
                   auth := AuthMode.priv, store := false }]
    peerChannelSubscriptions := [{ id := "s0", appId := "A", peerId := "p1",
                                   channelId := "c1" }]
    storedChannelMessages := [] }

/-- App "A" with a single sink whose id and authenticatedUserId match no
`user.messages.send` recipient "nobody". -/
def unknownRecipientState : DB :=
  { peers := [{ id := "p1", appId := "A", type := PeerType.sink,
                authenticatedUserId := none, userInfo := none }]
    channels := []
    peerChannelSubscriptions := []
    storedChannelMessages := [] }

/-- App "A", private channel, authenticated peer not yet subscribed (used to
exercise the coordinator aggregation of subscribe requests). -/
def aggregationState : DB :=
  { peers := [{ id := "p1", appId := "A", type := PeerType.sink,
                authenticatedUserId := some "u1", userInfo := none }]
    channels := [{ id := "c1", appId := "A", name := "chan",
                   auth := AuthMode.priv, store := false }]
    peerChannelSubscriptions := []
    storedChannelMessages := [] }

/-- The same state after the peer subscribed (used to exercise the
coordinator aggregation of unsubscribe requests). -/
def aggregationSubscribedState : DB :=
  { aggregationState with
    peerChannelSubscriptions := [{ id := "s0", appId := "A", peerId := "p1",
                                   channelId := "c1" }] }

/-- S5 of the spec: `p1` subscribed to `c1` and `c2`, co-member `p2` on `c1`
only. -/
def disconnectState : DB :=
  { peers := [{ id := "p1", appId := "A", type := PeerType.sink,
                authenticatedUserId := none, userInfo := none },
              { id := "p2", appId := "A", type := PeerType.sink,
                authenticatedUserId := none, userInfo := none }]
    channels := [{ id := "c1", appId := "A", name := "chan1",
                   auth := AuthMode.public, store := false },
                 { id := "c2", appId := "A", name := "chan2",
                   auth := AuthMode.public, store := false }]
    peerChannelSubscriptions :=
      [{ id := "s1", appId := "A", peerId := "p1", channelId := "c1" },
       { id := "s2", appId := "A", peerId := "p1", channelId := "c2" },
       { id := "s3", appId := "A", peerId := "p2", channelId := "c1" }]
    storedChannelMessages := [] }

/-- S2 of the spec: presence channel with two authenticated members, a third
authenticated peer about to join. -/
def presenceJoinState : DB :=
  { peers := [{ id := "p1", appId := "A", type := PeerType.sink,
                authenticatedUserId := some "u1", userInfo := some "nick-a" },
              { id := "p2", appId := "A", type := PeerType.sink,
                authenticatedUserId := some "u2", userInfo := some "nick-b" },
              { id := "p3", appId := "A", type := PeerType.sink,
                authenticatedUserId := some "u3", userInfo := some "nick-c" }]
    channels := [{ id := "c1", appId := "A", name := "chan",
                   auth := AuthMode.presence, store := false }]
    peerChannelSubscriptions :=
      [{ id := "s1", appId := "A", peerId := "p1", channelId := "c1" },
       { id := "s2", appId := "A", peerId := "p2", channelId := "c1" }]
    storedChannelMessages := [] }

/-- A stored channel with one subscriber and no stored message yet. -/
def storeSendState : DB :=
  { peers := [{ id := "p1", appId := "A", type := PeerType.sink,
                authenticatedUserId := none, userInfo := none }]
    channels := [{ id := "c1", appId := "A", name := "chan",
                   auth := AuthMode.public, store := true }]
    peerChannelSubscriptions := [{ id := "s1", appId := "A", peerId := "p1",
                                   channelId := "c1" }]
    storedChannelMessages := [] }

/-- A channel with two stored messages (out of insertion order by
`createdAt`) and a subscribed sink. -/
def replayState : DB :=
  { peers := [{ id := "p1", appId := "A", type := PeerType.sink,
                authenticatedUserId := none, userInfo := none }]
    channels := [{ id := "c1", appId := "A", name := "chan",
                   auth := AuthMode.public, store := true }]
    peerChannelSubscriptions := [{ id := "s1", appId := "A", peerId := "p1",
                                   channelId := "c1" }]
    storedChannelMessages :=
      [{ id := "m2", appId := "A", channelId := "c1", createdAt := 7,
         data := { channelId := "c1", event := "ev",
                   message := MessageType.plain "two" } },
       { id := "m1", appId := "A", channelId := "c1", createdAt := 3,
         data := { channelId := "c1", event := "ev",
                   message := MessageType.plain "one" } }] }

/-- A source peer, used to show "ping" is answered before the peer's type is
consulted. -/
def pingSourceState : DB :=
  { peers := [{ id := "p1", appId := "A", type := PeerType.source,
                authenticatedUserId := none, userInfo := none }]
    channels := []
    peerChannelSubscriptions := []
    storedChannelMessages := [] }

/-- Tenant "A" with one stored message of its own. -/
def isolationStateA : DB :=
  { peers := [{ id := "p1", appId := "A", type := PeerType.sink,
                authenticatedUserId := none, userInfo := none }]
    channels := [{ id := "c1", appId := "A", name := "chan",
                   auth := AuthMode.public, store := true }]
    peerChannelSubscriptions := []
    storedChannelMessages :=
      [{ id := "m1", appId := "A", channelId := "c1", createdAt := 1,
         data := { channelId := "c1", event := "ev",
                   message := MessageType.plain "own" } }] }

/-- The same state with an extra stored message belonging to tenant "B". -/
def isolationStateB : DB :=
  { isolationStateA with
    storedChannelMessages :=
      isolationStateA.storedChannelMessages ++
      [{ id := "x1", appId := "B", channelId := "c9", createdAt := 0,
         data := { channelId := "c9", event := "ev",
                   message := MessageType.plain "foreign" } }] }

/-- C1: the spec states that `channel.subscribers.add` must fail with
"Peer not authenticated" for private/presence channels when the peer is
unauthenticated and must succeed on public channels; the code inverts the
polarity (server.ts checks `ch.auth === "public"`). At the failing input —
a private channel and an unauthenticated peer — the handler succeeds and
inserts the subscription row, while on a public channel the same
unauthenticated peer is rejected. -/
theorem c1_auth_polarity_inverted :
    (handleSource (some [{ success := true, error := none }]) ["p1"] 0 "sub1"
        "env1" (Request.channelSubscribersAdd "p1" "c1") "A" privateChannelState
      = .ok ({ success := true, error := none },
          { privateChannelState with
            peerChannelSubscriptions :=
              [{ id := "sub1", appId := "A", peerId := "p1", channelId := "c1" }] },
          []))
    ∧ (handleSource (some [{ success := true, error := none }]) ["p1"] 0 "sub1"
        "env1" (Request.channelSubscribersAdd "p1" "c1") "A" publicChannelState
      = .ok ({ success := false, error := some "Peer not authenticated" },
          publicChannelState, [])) := by
  constructor <;> rfl

/-- C3: a `user.messages.send` whose recipient matches no peer is answered
with `{success: false, error: "Peer not found"}` — both on a worker with no
matching peer and on the coordinator when no shard succeeds — although the
route's declared response schema (validators server.ts) only allows
"Recipient not found", which the implementation never produces. -/
theorem c3_unknown_recipient_error_string :
    (handleSource none ["p1"] 0 "f1" "env1"
        (Request.userMessagesSend "nobody" "ev" (MessageType.plain "x")) "A"
        unknownRecipientState
      = .ok ({ success := false, error := some "Peer not found" },
          unknownRecipientState, []))
    ∧ (handleSource (some [{ success := false, error := some "Peer not found" }])
        ["p1"] 0 "f1" "env1"
        (Request.userMessagesSend "nobody" "ev" (MessageType.plain "x")) "A"
        unknownRecipientState
      = .ok ({ success := false, error := some "Peer not found" },
          unknownRecipientState, []))
    ∧ "Peer not found" ∉ userMessagesSendErrors
    ∧ "Recipient not found" ∈ userMessagesSendErrors := by
  refine ⟨rfl, rfl, by decide, by decide⟩

/-- C2 fails as stated: subscribing an already-subscribed peer again does
not return success — the duplicate insert violates the unique index
`pcs_unique` and the request raises instead. -/
theorem c2_counterexample :
    handleSource (some [{ success := true, error := none }]) ["p1"] 0 "s1"
        "env2" (Request.channelSubscribersAdd "p1" "c1") "A"
        duplicateSubscribeState
      = .error "UNIQUE constraint failed: peerChannelSubscription" := by
  rfl

/-- C2 amended: whenever the channel and peer resolve, the authorization
check passes and a subscription row for `(appId, peerId, channelId)` already
exists, the coordinator-side `channel.subscribers.add` raises the unique
constraint error: no success response is produced, the table is left as it
was (still exactly one row for the pair), and no join-channel or member-join
frame is emitted. -/
theorem c2_duplicate_subscribe_raises
    (shard : List Resp) (live : List String) (now : Nat)
    (freshId envId appId subscriberId channelId : String) (db : DB)
    (ch : Channel) (dbPeer : DBPeer)
    (hch : db.channels.find? (fun c => c.appId == appId && c.id == channelId)
      = some ch)
    (hpeer : findPeerByEitherId db appId subscriberId = some dbPeer)
    (hauth : ¬(ch.auth = AuthMode.public ∧ dbPeer.authenticatedUserId = none))
    (hdup : ∃ s ∈ db.peerChannelSubscriptions,
      s.appId = appId ∧ s.peerId = dbPeer.id ∧ s.channelId = ch.id) :
    handleSource (some shard) live now freshId envId
        (Request.channelSubscribersAdd subscriberId channelId) appId db
      = .error "UNIQUE constraint failed: peerChannelSubscription" := by
  have hany : db.peerChannelSubscriptions.any (fun t =>
      t.appId == appId && t.peerId == dbPeer.id && t.channelId == ch.id)
      = true := by
    obtain ⟨s, hs, h1, h2, h3⟩ := hdup
    exact List.any_eq_true.mpr ⟨s, hs, by simp [h1, h2, h3]⟩
  simp only [handleSource, hch, hpeer, if_neg hauth, insertSubscription, hany,
    if_pos]

/-- Witness for the amended C2 at the concrete duplicate-subscribe state. -/
theorem c2_duplicate_subscribe_raises_witness :
    handleSource (some [{ success := true, error := none }]) ["p1"] 0 "s1"
        "env3" (Request.channelSubscribersAdd "p1" "c1") "A"
        duplicateSubscribeState
      = .error "UNIQUE constraint failed: peerChannelSubscription" :=
  c2_duplicate_subscribe_raises [{ success := true, error := none }] ["p1"] 0
    "s1" "env3" "A" "p1" "c1" duplicateSubscribeState
    { id := "c1", appId := "A", name := "chan", auth := AuthMode.priv,
      store := false }
    { id := "p1", appId := "A", type := PeerType.sink,
      authenticatedUserId := some "u1", userInfo := none }
    (by rfl) (by rfl) (by decide)
    ⟨{ id := "s0", appId := "A", peerId := "p1", channelId := "c1" },
      by decide, rfl, rfl, rfl⟩

/-- C9: an inbound text frame that is exactly "ping" is answered with a
single "pong" to the sending peer and nothing else — the check precedes the
peer-type lookup, so it applies to sources and sinks alike, and the database
is untouched. -/
theorem c9_ping_answered_first (coord : Option (List Resp))
    (live : List String) (now : Nat) (freshId : String) (db : DB)
    (peerId : String) (msg : InboundFrame) (h : msg.text = "ping") :
    hooksMessage coord live now freshId db peerId msg
      = .ok (db, [(peerId, Outbound.pong)]) := by
  simp [hooksMessage, h]

/-- Witness for C9: a connected source peer whose frame would also parse as
a server envelope still gets "pong" for a literal "ping". -/
theorem c9_ping_answered_first_witness :
    hooksMessage none ["p1"] 0 "f1" pingSourceState "p1"
        { text := "ping", storedMessagesRequest := none,
          envelope := some ({ id := "e1",
                              request := some (Request.globalMessagesSend "x"
                                (MessageType.plain "m")) } : Envelope) }
      = .ok (pingSourceState, [("p1", Outbound.pong)]) :=
  c9_ping_answered_first none ["p1"] 0 "f1" pingSourceState "p1" _ rfl

/-- C4: on the coordinator, the aggregate success reported to the source is
the conjunction of the per-shard successes returned by `distribute` for
`global.messages.send`, `channel.messages.send` and the notification step of
`channel.subscribers.add` / `channel.subscribers.remove` (once the channel,
peer, authorization and uniqueness checks have passed), and the disjunction
of the per-shard successes for `user.messages.send`. -/
theorem c4_aggregate_success (shard : List Resp) (live : List String)
    (now : Nat) (freshId envId appId : String) (db : DB) :
    (∀ event message, ∃ r d2 fr,
      handleSource (some shard) live now freshId envId
          (Request.globalMessagesSend event message) appId db = .ok (r, d2, fr)
      ∧ r.success = shard.all (fun s => s.success))
    ∧ (∀ channelId event message, ∃ r d2 fr,
      handleSource (some shard) live now freshId envId
          (Request.channelMessagesSend channelId event message) appId db
        = .ok (r, d2, fr)
      ∧ r.success = shard.all (fun s => s.success))
    ∧ (∀ recipientId event message, ∃ r d2 fr,
      handleSource (some shard) live now freshId envId
          (Request.userMessagesSend recipientId event message) appId db
        = .ok (r, d2, fr)
      ∧ r.success = shard.any (fun s => s.success))
    ∧ (∀ subscriberId channelId ch dbPeer,
      db.channels.find? (fun c => c.appId == appId && c.id == channelId)
          = some ch →
      findPeerByEitherId db appId subscriberId = some dbPeer →
      ¬(ch.auth = AuthMode.public ∧ dbPeer.authenticatedUserId = none) →
      db.peerChannelSubscriptions.any (fun t =>
        t.appId == appId && t.peerId == dbPeer.id && t.channelId == ch.id)
          = false →
      ∃ r d2 fr,
        handleSource (some shard) live now freshId envId
            (Request.channelSubscribersAdd subscriberId channelId) appId db
          = .ok (r, d2, fr)
        ∧ r.success = shard.all (fun s => s.success))
    ∧ (∀ subscriberId channelId ch dbPeer sub,
      db.channels.find? (fun c => c.appId == appId && c.id == channelId)
          = some ch →
      findPeerByEitherId db appId subscriberId = some dbPeer →
      db.peerChannelSubscriptions.find? (fun s =>
        s.appId == appId && s.peerId == dbPeer.id && s.channelId == ch.id)
          = some sub →
      ∃ r d2 fr,
        handleSource (some shard) live now freshId envId
            (Request.channelSubscribersRemove subscriberId channelId) appId db
          = .ok (r, d2, fr)
        ∧ r.success = shard.all (fun s => s.success)) := by
  refine ⟨?_, ?_, ?_, ?_, ?_⟩
  · intro event message
    cases hall : shard.all (fun s => s.success)
    · exact ⟨{ success := false, error := some "Invalid request" }, db, [],
        by simp [handleSource, hall], by simp [hall]⟩
    · exact ⟨{ success := true, error := none }, db, [],
        by simp [handleSource, hall], by simp [hall]⟩
  · intro channelId event message
    cases hall : shard.all (fun s => s.success)
    · exact ⟨{ success := false, error := some "Invalid request" }, db, [],
        by simp [handleSource, hall], by simp [hall]⟩
    · exact ⟨{ success := true, error := none }, db, [],
        by simp [handleSource, hall], by simp [hall]⟩
  · intro recipientId event message
    cases hany : shard.any (fun s => s.success)
    · exact ⟨{ success := false, error := some "Peer not found" }, db, [],
        by simp [handleSource, hany], by simp [hany]⟩
    · exact ⟨{ success := true, error := none }, db, [],
        by simp [handleSource, hany], by simp [hany]⟩
  · intro subscriberId channelId ch dbPeer hch hpeer hauth hfresh
    cases hall : shard.all (fun s => s.success)
    · exact ⟨{ success := false, error := some "Invalid request" },
        { db with peerChannelSubscriptions := db.peerChannelSubscriptions ++
            [{ id := freshId, appId := appId, peerId := dbPeer.id,
               channelId := ch.id }] }, [],
        by simp [handleSource, hch, hpeer, if_neg hauth, insertSubscription,
          hfresh, hall],
        by simp [hall]⟩
    · exact ⟨{ success := true, error := none },
        { db with peerChannelSubscriptions := db.peerChannelSubscriptions ++
            [{ id := freshId, appId := appId, peerId := dbPeer.id,
               channelId := ch.id }] }, [],
        by simp [handleSource, hch, hpeer, if_neg hauth, insertSubscription,
          hfresh, hall],
        by simp [hall]⟩
  · intro subscriberId channelId ch dbPeer sub hch hpeer hsub
    cases hall : shard.all (fun s => s.success)
    · exact ⟨{ success := false, error := some "Invalid request" },
        { db with peerChannelSubscriptions :=
            db.peerChannelSubscriptions.filter (fun s => s.id != sub.id) }, [],
        by simp [handleSource, hch, hpeer, hsub, hall], by simp [hall]⟩
    · exact ⟨{ success := true, error := none },
        { db with peerChannelSubscriptions :=
            db.peerChannelSubscriptions.filter (fun s => s.id != sub.id) }, [],
        by simp [handleSource, hch, hpeer, hsub, hall], by simp [hall]⟩

/-- Witness for C4: the subscribe / unsubscribe aggregation conjuncts applied
at a concrete state with a two-shard response list. -/
theorem c4_aggregate_success_witness :
    (∃ r d2 fr,
      handleSource
          (some [{ success := true, error := none },
                 { success := false, error := some "Unknown error" }])
          ["p1"] 0 "f1" "e1" (Request.channelSubscribersAdd "p1" "c1") "A"
          aggregationState
        = .ok (r, d2, fr)
      ∧ r.success = ([{ success := true, error := none },
                      { success := false, error := some "Unknown error" }] :
          List Resp).all (fun s => s.success))
    ∧ (∃ r d2 fr,
      handleSource
          (some [{ success := true, error := none },
                 { success := false, error := some "Unknown error" }])
          ["p1"] 0 "f1" "e1" (Request.channelSubscribersRemove "p1" "c1") "A"
          aggregationSubscribedState
        = .ok (r, d2, fr)
      ∧ r.success = ([{ success := true, error := none },
                      { success := false, error := some "Unknown error" }] :
          List Resp).all (fun s => s.success)) :=
  ⟨(c4_aggregate_success
      [{ success := true, error := none },
       { success := false, error := some "Unknown error" }]
      ["p1"] 0 "f1" "e1" "A" aggregationState).2.2.2.1
      "p1" "c1"
      { id := "c1", appId := "A", name := "chan", auth := AuthMode.priv,
        store := false }
      { id := "p1", appId := "A", type := PeerType.sink,
        authenticatedUserId := some "u1", userInfo := none }
      (by rfl) (by rfl) (by decide) (by rfl),
   (c4_aggregate_success
      [{ success := true, error := none },
       { success := false, error := some "Unknown error" }]
      ["p1"] 0 "f1" "e1" "A" aggregationSubscribedState).2.2.2.2
      "p1" "c1"
      { id := "c1", appId := "A", name := "chan", auth := AuthMode.priv,
        store := false }
      { id := "p1", appId := "A", type := PeerType.sink,
        authenticatedUserId := some "u1", userInfo := none }
      { id := "s0", appId := "A", peerId := "p1", channelId := "c1" }
      (by rfl) (by rfl) (by rfl)⟩

/-- C7: on a worker, `channel.messages.send` for an existing channel with
`store=true` appends exactly one StoredMessage row whose id is the
source-supplied envelope id (when that id is fresh, as a successful
acknowledgement requires), and pushes a message frame with
`from = {source: "channel", channelId}` to each local subscriber; with
`store=false` the stored-message table is untouched. -/
theorem c7_channel_send_persistence (live : List String) (now : Nat)
    (freshId envId appId channelId event : String) (message : MessageType)
    (db : DB) (ch : Channel)
    (hch : db.channels.find? (fun c => c.id == channelId && c.appId == appId)
      = some ch) :
    (ch.store = true →
      db.storedChannelMessages.any (fun t => t.id == envId) = false →
      ∃ r d2 fr,
        handleSource none live now freshId envId
            (Request.channelMessagesSend channelId event message) appId db
          = .ok (r, d2, fr)
        ∧ r.success = true
        ∧ d2.storedChannelMessages = db.storedChannelMessages ++
            [{ id := envId, appId := appId, channelId := ch.id,
               createdAt := now,
               data := { channelId := channelId, event := event,
                         message := message } }]
        ∧ d2.storedChannelMessages.countP (fun m => m.id == envId) = 1
        ∧ (∀ d ∈ fr,
            d.2 = Outbound.message envId event (OriginField.channel ch.id)
              message)
        ∧ (∀ q ∈ live,
            (∃ s ∈ db.peerChannelSubscriptions,
              s.appId = appId ∧ s.channelId = channelId ∧ s.peerId = q) →
            (q, Outbound.message envId event (OriginField.channel ch.id)
              message) ∈ fr))
    ∧ (ch.store = false →
      ∃ r d2 fr,
        handleSource none live now freshId envId
            (Request.channelMessagesSend channelId event message) appId db
          = .ok (r, d2, fr)
        ∧ r.success = true
        ∧ d2.storedChannelMessages = db.storedChannelMessages
        ∧ (∀ d ∈ fr,
            d.2 = Outbound.message envId event (OriginField.channel ch.id)
              message)
        ∧ (∀ q ∈ live,
            (∃ s ∈ db.peerChannelSubscriptions,
              s.appId = appId ∧ s.channelId = channelId ∧ s.peerId = q) →
            (q, Outbound.message envId event (OriginField.channel ch.id)
              message) ∈ fr)) := by
  have hframes : ∀ d ∈ (db.peerChannelSubscriptions.filter (fun s =>
      s.appId == appId && s.channelId == channelId)).filterMap (fun s =>
        if live.contains s.peerId then
          some (s.peerId,
            Outbound.message envId event (OriginField.channel ch.id) message)
        else none),
      d.2 = Outbound.message envId event (OriginField.channel ch.id) message := by
    intro d hd
    obtain ⟨s, -, hs⟩ := List.mem_filterMap.mp hd
    split at hs
    · cases hs
      rfl
    · cases hs
  have hcover : ∀ q ∈ live,
      (∃ s ∈ db.peerChannelSubscriptions,
        s.appId = appId ∧ s.channelId = channelId ∧ s.peerId = q) →
      (q, Outbound.message envId event (OriginField.channel ch.id) message) ∈
        (db.peerChannelSubscriptions.filter (fun s =>
          s.appId == appId && s.channelId == channelId)).filterMap (fun s =>
            if live.contains s.peerId then
              some (s.peerId,
                Outbound.message envId event (OriginField.channel ch.id)
                  message)
            else none) := by
    intro q hq ⟨s, hs, h1, h2, h3⟩
    refine List.mem_filterMap.mpr ⟨s, List.mem_filter.mpr ⟨hs, by simp [h1, h2]⟩, ?_⟩
    simp [h3, hq]
  constructor
  · intro hstore hfresh
    refine ⟨{ success := true, error := none },
      { db with storedChannelMessages := db.storedChannelMessages ++
          [{ id := envId, appId := appId, channelId := ch.id, createdAt := now,
             data := { channelId := channelId, event := event,
                       message := message } }] },
      (db.peerChannelSubscriptions.filter (fun s =>
        s.appId == appId && s.channelId == channelId)).filterMap (fun s =>
          if live.contains s.peerId then
            some (s.peerId,
              Outbound.message envId event (OriginField.channel ch.id) message)
          else none),
      ?_, rfl, rfl, ?_, hframes, hcover⟩
    · simp [handleSource, hch, hstore, insertStoredMessage, hfresh]
    · rw [List.countP_append]
      have h0 : db.storedChannelMessages.countP (fun m => m.id == envId) = 0 :=
        List.countP_eq_zero.mpr (by
          intro m hm
          have := List.any_eq_false.mp hfresh m hm
          simpa using this)
      simp [h0]
  · intro hstore
    refine ⟨{ success := true, error := none }, db,
      (db.peerChannelSubscriptions.filter (fun s =>
        s.appId == appId && s.channelId == channelId)).filterMap (fun s =>
          if live.contains s.peerId then
            some (s.peerId,
              Outbound.message envId event (OriginField.channel ch.id) message)
          else none),
      ?_, rfl, rfl, hframes, hcover⟩
    simp [handleSource, hch, hstore]

/-- Witness for C7 at the concrete stored-channel state. -/
theorem c7_channel_send_persistence_witness :
    ∃ r d2 fr,
      handleSource none ["p1"] 5 "f1" "msg-1"
          (Request.channelMessagesSend "c1" "ev" (MessageType.plain "x")) "A"
          storeSendState
        = .ok (r, d2, fr)
      ∧ r.success = true
      ∧ d2.storedChannelMessages = storeSendState.storedChannelMessages ++
          [{ id := "msg-1", appId := "A", channelId := "c1", createdAt := 5,
             data := { channelId := "c1", event := "ev",
                       message := MessageType.plain "x" } }]
      ∧ d2.storedChannelMessages.countP (fun m => m.id == "msg-1") = 1
      ∧ (∀ d ∈ fr,
          d.2 = Outbound.message "msg-1" "ev" (OriginField.channel "c1")
            (MessageType.plain "x"))
      ∧ (∀ q ∈ (["p1"] : List String),
          (∃ s ∈ storeSendState.peerChannelSubscriptions,
            s.appId = "A" ∧ s.channelId = "c1" ∧ s.peerId = q) →
          (q, Outbound.message "msg-1" "ev" (OriginField.channel "c1")
            (MessageType.plain "x")) ∈ fr) :=
  (c7_channel_send_persistence ["p1"] 5 "f1" "msg-1" "A" "c1" "ev"
      (MessageType.plain "x") storeSendState
      { id := "c1", appId := "A", name := "chan", auth := AuthMode.public,
        store := true }
      (by rfl)).1 (by rfl) (by rfl)

/-- C10: the stored-message replay of a sink only draws on rows whose appId
is the requesting peer's own appId and whose channelId is the requested
channel, and the frames are therefore independent of any other tenant's
stored messages: two database states that agree on the requesting app's
rows produce identical replay frames. -/
theorem c10_replay_tenant_isolation (app chId : String) (S : List String) :
    (∀ db : DB, ∀ f ∈ replayFrames db app chId S,
      ∃ m ∈ db.storedChannelMessages,
        m.appId = app ∧ m.channelId = chId ∧ m.id ∈ S ∧
        f = Outbound.message m.id m.data.event
          (OriginField.channel m.data.channelId) m.data.message)
    ∧ (∀ db1 db2 : DB,
      db1.storedChannelMessages.filter (fun m => m.appId == app)
        = db2.storedChannelMessages.filter (fun m => m.appId == app) →
      replayFrames db1 app chId S = replayFrames db2 app chId S) := by
  constructor
  · intro db f hf
    obtain ⟨m, hm, hfm⟩ := List.mem_map.mp hf
    have hm2 : m ∈ db.storedChannelMessages.filter (fun m =>
        m.channelId == chId && m.appId == app && S.contains m.id) :=
      (List.perm_insertionSort createdAtLe _).mem_iff.mp hm
    have hm3 := List.mem_filter.mp hm2
    refine ⟨m, hm3.1, ?_, ?_, ?_, hfm.symm⟩
    · have := hm3.2
      simp only [Bool.and_eq_true, beq_iff_eq] at this
      exact this.1.2
    · have := hm3.2
      simp only [Bool.and_eq_true, beq_iff_eq] at this
      exact this.1.1
    · have := hm3.2
      simp only [Bool.and_eq_true] at this
      exact List.mem_of_elem_eq_true this.2
  · intro db1 db2 h
    have key : ∀ d : DB, d.storedChannelMessages.filter (fun m =>
        m.channelId == chId && m.appId == app && S.contains m.id)
      = (d.storedChannelMessages.filter (fun m => m.appId == app)).filter
          (fun m => m.channelId == chId && S.contains m.id) := by
      intro d
      rw [List.filter_filter]
      apply List.filter_congr
      intro m _
      cases hc : (m.channelId == chId) <;> cases ha : (m.appId == app) <;>
        cases hs : (S.contains m.id) <;> simp [hc, ha, hs]
    show ((sortByCreatedAt _).map _) = ((sortByCreatedAt _).map _)
    rw [key db1, key db2, h]

/-- Witness for C10: adding another tenant's stored message leaves a sink's
replay frames unchanged. -/
theorem c10_replay_tenant_isolation_witness :
    replayFrames isolationStateA "A" "c1" ["m1"]
      = replayFrames isolationStateB "A" "c1" ["m1"] :=
  (c10_replay_tenant_isolation "A" "c1" ["m1"]).2 isolationStateA
    isolationStateB (by decide)

/-- C8: when every id in the (duplicate-free) requested set `S` is the id of
a stored message of the channel, and the channel's rows carry the app of the
requesting sink (as every row written by `channel.messages.send` does), the
replay produces exactly `|S|` message frames, the underlying rows are sorted
by `createdAt` ascending, their ids are exactly `S`, and each frame carries
the stored message's id and `from = {source: "channel", channelId}`. -/
theorem c8_replay_roundtrip (db : DB) (app chId : String) (S : List String)
    (hS : S.Nodup)
    (hsub : ∀ a ∈ S, ∃ m ∈ db.storedChannelMessages,
      m.channelId = chId ∧ m.id = a)
    (hids : (db.storedChannelMessages.map StoredMessage.id).Nodup)
    (happ : ∀ m ∈ db.storedChannelMessages, m.channelId = chId →
      m.appId = app ∧ m.data.channelId = chId) :
    ((replayStoredMessages db app chId S).map StoredMessage.id).Perm S
    ∧ (replayFrames db app chId S).length = S.length
    ∧ List.Sorted createdAtLe (replayStoredMessages db app chId S)
    ∧ (∀ f ∈ replayFrames db app chId S,
        ∃ m ∈ replayStoredMessages db app chId S,
          f = Outbound.message m.id m.data.event (OriginField.channel chId)
            m.data.message) := by
  have hfilter : ∀ m, m ∈ db.storedChannelMessages.filter (fun m =>
      m.channelId == chId && m.appId == app && S.contains m.id) ↔
      (m ∈ db.storedChannelMessages ∧ m.channelId = chId ∧ m.appId = app ∧
        m.id ∈ S) := by
    intro m
    rw [List.mem_filter]
    constructor
    · rintro ⟨h1, h2⟩
      simp only [Bool.and_eq_true, beq_iff_eq] at h2
      exact ⟨h1, h2.1.1, h2.1.2, List.mem_of_elem_eq_true h2.2⟩
    · rintro ⟨h1, h2, h3, h4⟩
      refine ⟨h1, ?_⟩
      simp only [Bool.and_eq_true, beq_iff_eq]
      exact ⟨⟨h2, h3⟩, List.elem_eq_true_of_mem h4⟩
  have hperm0 : (replayStoredMessages db app chId S).Perm
      (db.storedChannelMessages.filter (fun m =>
        m.channelId == chId && m.appId == app && S.contains m.id)) :=
    List.perm_insertionSort createdAtLe _
  have hpermids : ((replayStoredMessages db app chId S).map
      StoredMessage.id).Perm S := by
    refine (hperm0.map StoredMessage.id).trans ?_
    have hnod1 : ((db.storedChannelMessages.filter (fun m =>
        m.channelId == chId && m.appId == app && S.contains m.id)).map
          StoredMessage.id).Nodup :=
      hids.sublist ((List.filter_sublist _).map StoredMessage.id)
    refine (List.perm_ext_iff_of_nodup hnod1 hS).mpr ?_
    intro a
    constructor
    · intro ha
      obtain ⟨m, hm, hma⟩ := List.mem_map.mp ha
      obtain ⟨-, -, -, hmS⟩ := (hfilter m).mp hm
      exact hma ▸ hmS
    · intro ha
      obtain ⟨m, hm, hchan, hid⟩ := hsub a ha
      obtain ⟨hm1, hm2⟩ := happ m hm hchan
      exact List.mem_map.mpr ⟨m,
        (hfilter m).mpr ⟨hm, hchan, hm1, hid ▸ ha⟩, hid⟩
  refine ⟨hpermids, ?_, ?_, ?_⟩
  · calc (replayFrames db app chId S).length
        = (replayStoredMessages db app chId S).length := List.length_map _ _
      _ = ((replayStoredMessages db app chId S).map StoredMessage.id).length :=
          (List.length_map _ _).symm
      _ = S.length := hpermids.length_eq
  · exact List.sorted_insertionSort createdAtLe _
  · intro f hf
    obtain ⟨m, hm, hfm⟩ := List.mem_map.mp hf
    have hm2 := (hfilter m).mp (hperm0.mem_iff.mp hm)
    obtain ⟨hmem, hchan, -, -⟩ := hm2
    obtain ⟨-, hdata⟩ := happ m hmem hchan
    exact ⟨m, hm, by rw [← hfm, hdata]⟩

/-- Witness for C8 at the concrete two-message replay state. -/
theorem c8_replay_roundtrip_witness :
    ((replayStoredMessages replayState "A" "c1" ["m1", "m2"]).map
      StoredMessage.id).Perm ["m1", "m2"]
    ∧ (replayFrames replayState "A" "c1" ["m1", "m2"]).length
        = (["m1", "m2"] : List String).length
    ∧ List.Sorted createdAtLe
        (replayStoredMessages replayState "A" "c1" ["m1", "m2"])
    ∧ (∀ f ∈ replayFrames replayState "A" "c1" ["m1", "m2"],
        ∃ m ∈ replayStoredMessages replayState "A" "c1" ["m1", "m2"],
          f = Outbound.message m.id m.data.event (OriginField.channel "c1")
            m.data.message) :=
  c8_replay_roundtrip replayState "A" "c1" ["m1", "m2"] (by decide)
    (by
      intro a ha
      simp only [List.mem_cons, List.not_mem_nil, or_false] at ha
      rcases ha with h | h
      · exact ⟨replayState.storedChannelMessages.get ⟨1, by decide⟩,
          by decide, by decide, by rw [h]; decide⟩
      · exact ⟨replayState.storedChannelMessages.get ⟨0, by decide⟩,
          by decide, by decide, by rw [h]; decide⟩)
    (by decide)
    (by
      intro m hm _
      have : m ∈ replayState.storedChannelMessages := hm
      simp only [replayState, List.mem_cons, List.not_mem_nil, or_false]
        at this
      rcases this with h | h <;> (rw [h]; exact ⟨rfl, rfl⟩))

/-- When peer ids are distinct (they are primary keys), membership in the
subscriber join is membership of a subscribed peer row of the app,
minus the excluded peer. -/
theorem mem_joinedSubscribers (db : DB) (appId channelId : String)
    (exclude : Option String) (p : DBPeer)
    (hids : (db.peers.map DBPeer.id).Nodup) :
    p ∈ joinedSubscribers db appId channelId exclude ↔
      (p ∈ db.peers ∧ p.appId = appId ∧
        (∃ s ∈ db.peerChannelSubscriptions,
          s.peerId = p.id ∧ s.channelId = channelId) ∧
        (∀ e, exclude = some e → p.id ≠ e)) := by
  unfold joinedSubscribers
  rw [List.mem_filterMap]
  constructor
  · rintro ⟨s, hsmem, hs⟩
    rcases hfind : db.peers.find? (fun t => t.id == s.peerId) with _ | q
    · rw [hfind] at hs
      cases hs
    · rw [hfind] at hs
      have hqmem := List.mem_of_find?_eq_some hfind
      have hqid : q.id = s.peerId := by simpa using List.find?_some hfind
      simp only [Option.ite_none_right_eq_some, Option.some.injEq,
        Bool.and_eq_true, beq_iff_eq] at hs
      obtain ⟨⟨⟨h1, h2⟩, h3⟩, h4⟩ := hs
      subst h4
      refine ⟨hqmem, h1, ⟨s, hsmem, hqid.symm, h2⟩, ?_⟩
      intro e he
      cases exclude with
      | none => cases he
      | some e2 =>
        cases he
        simpa using h3
  · rintro ⟨hpmem, happ, ⟨s, hsmem, hsp, hsc⟩, hexc⟩
    refine ⟨s, hsmem, ?_⟩
    have hfind : db.peers.find? (fun t => t.id == s.peerId) = some p := by
      have hsome : (db.peers.find? (fun t => t.id == s.peerId)).isSome := by
        rw [List.find?_isSome]
        exact ⟨p, hpmem, by simp [hsp]⟩
      rcases hq : db.peers.find? (fun t => t.id == s.peerId) with _ | q
      · rw [hq] at hsome
        cases hsome
      · have hqmem := List.mem_of_find?_eq_some hq
        have hqid : q.id = s.peerId := by simpa using List.find?_some hq
        have : q = p :=
          List.inj_on_of_nodup_map hids hqmem hpmem (by rw [hqid, hsp])
        rw [this] at hq
        exact hq
    rw [hfind]
    simp only [Option.ite_none_right_eq_some, Option.some.injEq,
      Bool.and_eq_true, beq_iff_eq]
    refine ⟨⟨⟨happ, hsc⟩, ?_⟩, trivial⟩
    cases exclude with
    | none => simp
    | some e => simpa using hexc e rfl

/-- C6: on the worker that delivers the notifications of a successful
`channel.subscribers.add`, the joining peer receives a `join-channel` frame
whose member list is exactly the set of other subscribed peers of the
channel in the requesting app, each entry carrying
`id = authenticatedUserId ?? peerId` and a `userInfo` only when the
channel's auth mode is presence; every other local member receives one
`member-join` frame for the joining peer under the same userInfo rule. -/
theorem c6_join_channel_member_list (live : List String) (now : Nat)
    (freshId envId appId subscriberId channelId : String) (db : DB)
    (ch : Channel) (dbPeer : DBPeer)
    (hch : db.channels.find? (fun c => c.appId == appId && c.id == channelId)
      = some ch)
    (hpeer : findPeerByEitherId db appId subscriberId = some dbPeer)
    (hauth : ¬(ch.auth = AuthMode.public ∧ dbPeer.authenticatedUserId = none))
    (hlive : dbPeer.id ∈ live)
    (hids : (db.peers.map DBPeer.id).Nodup) :
    ∃ storedList members mjFrames,
      handleSource none live now freshId envId
          (Request.channelSubscribersAdd subscriberId channelId) appId db
        = .ok ({ success := true, error := none }, db,
            (dbPeer.id, Outbound.metadata envId
              (MetadataEvent.joinChannel ch.id ch.auth ch.name storedList
                members)) :: mjFrames)
      ∧ (∀ m, m ∈ members ↔ ∃ p ∈ db.peers,
          p.appId = appId ∧ p.id ≠ dbPeer.id ∧
          (∃ s ∈ db.peerChannelSubscriptions,
            s.peerId = p.id ∧ s.channelId = ch.id) ∧
          m.id = p.authenticatedUserId.getD p.id ∧
          m.userInfo = (if ch.auth = AuthMode.presence then p.userInfo
            else none))
      ∧ (∀ d ∈ mjFrames,
          d.2 = Outbound.metadata envId (MetadataEvent.memberJoin ch.id
            { id := dbPeer.authenticatedUserId.getD dbPeer.id
              userInfo := if ch.auth = AuthMode.presence then dbPeer.userInfo
                else none }))
      ∧ (∀ p ∈ db.peers, p.appId = appId → p.id ≠ dbPeer.id → p.id ∈ live →
          (∃ s ∈ db.peerChannelSubscriptions,
            s.peerId = p.id ∧ s.channelId = ch.id) →
          (p.id, Outbound.metadata envId (MetadataEvent.memberJoin ch.id
            { id := dbPeer.authenticatedUserId.getD dbPeer.id
              userInfo := if ch.auth = AuthMode.presence then dbPeer.userInfo
                else none })) ∈ mjFrames) := by
  have hc : live.contains dbPeer.id = true := List.elem_eq_true_of_mem hlive
  refine ⟨(sortByCreatedAt (db.storedChannelMessages.filter (fun m =>
      m.channelId == ch.id))).map (fun m => (m.id, m.createdAt)),
    (joinedSubscribers db appId ch.id (some dbPeer.id)).map
      (memberView ch.auth),
    (joinedSubscribers db appId ch.id (some dbPeer.id)).filterMap (fun p =>
      if live.contains p.id then
        some (p.id, Outbound.metadata envId
          (MetadataEvent.memberJoin ch.id (memberView ch.auth dbPeer)))
      else none),
    ?_, ?_, ?_, ?_⟩
  · simp [handleSource, hch, hpeer, if_neg hauth, hc, hlive, memberView]
  · intro m
    rw [List.mem_map]
    constructor
    · rintro ⟨p, hp, hpm⟩
      obtain ⟨h1, h2, h3, h4⟩ :=
        (mem_joinedSubscribers db appId ch.id (some dbPeer.id) p hids).mp hp
      exact ⟨p, h1, h2, h4 dbPeer.id rfl, h3, by rw [← hpm]; rfl,
        by rw [← hpm]; rfl⟩
    · rintro ⟨p, hp, h1, h2, h3, h4, h5⟩
      refine ⟨p, (mem_joinedSubscribers db appId ch.id (some dbPeer.id) p
        hids).mpr ⟨hp, h1, h3, ?_⟩, ?_⟩
      · intro e he
        cases he
        exact h2
      · cases m
        simp only [memberView]
        simp only at h4 h5
        rw [h4, h5]
  · intro d hd
    obtain ⟨p, -, hp⟩ := List.mem_filterMap.mp hd
    split at hp
    · cases hp
      rfl
    · cases hp
  · intro p hp h1 h2 h3 h4
    refine List.mem_filterMap.mpr ⟨p,
      (mem_joinedSubscribers db appId ch.id (some dbPeer.id) p hids).mpr
        ⟨hp, h1, h4, fun e he => by cases he; exact h2⟩, ?_⟩
    simp [h3, memberView]

/-- Witness for C6: the S2 presence join at the concrete state — peer `p3`
(user `u3`) joins channel `c1` whose members are `p1`/`u1` and `p2`/`u2`. -/
theorem c6_join_channel_member_list_witness :
    ∃ storedList members mjFrames,
      handleSource none ["p1", "p2", "p3"] 0 "f1" "e1"
          (Request.channelSubscribersAdd "u3" "c1") "A" presenceJoinState
        = .ok ({ success := true, error := none }, presenceJoinState,
            ("p3", Outbound.metadata "e1"
              (MetadataEvent.joinChannel "c1" AuthMode.presence "chan"
                storedList members)) :: mjFrames)
      ∧ (∀ m, m ∈ members ↔ ∃ p ∈ presenceJoinState.peers,
          p.appId = "A" ∧ p.id ≠ "p3" ∧
          (∃ s ∈ presenceJoinState.peerChannelSubscriptions,
            s.peerId = p.id ∧ s.channelId = "c1") ∧
          m.id = p.authenticatedUserId.getD p.id ∧
          m.userInfo = (if AuthMode.presence = AuthMode.presence then
            p.userInfo else none))
      ∧ (∀ d ∈ mjFrames,
          d.2 = Outbound.metadata "e1" (MetadataEvent.memberJoin "c1"
            { id := "u3", userInfo := some "nick-c" }))
      ∧ (∀ p ∈ presenceJoinState.peers, p.appId = "A" → p.id ≠ "p3" →
          p.id ∈ (["p1", "p2", "p3"] : List String) →
          (∃ s ∈ presenceJoinState.peerChannelSubscriptions,
            s.peerId = p.id ∧ s.channelId = "c1") →
          (p.id, Outbound.metadata "e1" (MetadataEvent.memberJoin "c1"
            { id := "u3", userInfo := some "nick-c" })) ∈ mjFrames) :=
  c6_join_channel_member_list ["p1", "p2", "p3"] 0 "f1" "e1" "A" "u3" "c1"
    presenceJoinState
    { id := "c1", appId := "A", name := "chan", auth := AuthMode.presence,
      store := false }
    { id := "p3", appId := "A", type := PeerType.sink,
      authenticatedUserId := some "u3", userInfo := some "nick-c" }
    (by rfl) (by rfl) (by decide) (by decide) (by decide)


/-- Counting helper: if `f` is injective on `l` (its image list is nodup)
and `b` is in the image, exactly one element of `l` maps to `b`. -/
theorem countP_image_eq_one {α β : Type} [DecidableEq β] (f : α → β) (b : β) :
    ∀ l : List α, (l.map f).Nodup → b ∈ l.map f →
      l.countP (fun a => decide (f a = b)) = 1 := by
  intro l
  induction l with
  | nil => intro _ h; cases h
  | cons x xs ih =>
    intro hnd hb
    rw [List.map_cons, List.nodup_cons] at hnd
    rw [List.map_cons, List.mem_cons] at hb
    by_cases hfx : f x = b
    · rw [List.countP_cons_of_pos _ _ (by simpa using hfx)]
      have hz : xs.countP (fun a => decide (f a = b)) = 0 := by
        rw [List.countP_eq_zero]
        intro a ha hda
        have hfa : f a = b := by simpa using hda
        exact hnd.1 (hfx ▸ hfa ▸ List.mem_map_of_mem f ha)
      rw [hz]
    · rw [List.countP_cons_of_neg _ _ (by simpa using hfx)]
      apply ih hnd.2
      rcases hb with h | h
      · exact absurd h.symm hfx
      · exact h

/-- C5: closing a peer's socket deletes all of its subscription rows
(cascade of the peer delete), and the `member-leave` fan-out delivers
exactly one frame per channel to each live co-member that is still
subscribed to a channel the closing peer was in — and none at all for
channels where the closing peer had no co-member, since every emitted frame
goes to a remaining subscriber of its channel. -/
theorem c5_disconnect_reaps_subscriptions (live : List String)
    (freshId : String) (db : DB) (pid q c : String)
    (hnd : subscriptionPairsNodup db)
    (hq : q ≠ pid) (hqlive : q ∈ live) :
    (∀ s ∈ (hooksClose live freshId db pid).1.peerChannelSubscriptions,
      s.peerId ≠ pid)
    ∧ ((hooksClose live freshId db pid).2.countP
          (isMemberLeaveDeliveryTo q c)
        = if (∃ s ∈ db.peerChannelSubscriptions,
                s.peerId = q ∧ s.channelId = c)
            ∧ (∃ s ∈ db.peerChannelSubscriptions,
                s.peerId = pid ∧ s.channelId = c)
          then 1 else 0)
    ∧ (∀ d ∈ (hooksClose live freshId db pid).2, ∀ c2 mem,
        d.2 = Outbound.metadata freshId (MetadataEvent.memberLeave c2 mem) →
        d.1 ≠ pid ∧ ∃ s ∈ db.peerChannelSubscriptions,
          s.peerId = d.1 ∧ s.channelId = c2) := by
  have hchids : ∀ c2 : String,
      ((db.peerChannelSubscriptions.filter (fun s => s.peerId == pid)).map
        (fun s => s.channelId)).contains c2 = true ↔
      ∃ s ∈ db.peerChannelSubscriptions, s.peerId = pid ∧ s.channelId = c2 := by
    intro c2
    rw [List.elem_iff]
    constructor
    · intro h
      obtain ⟨s, hs, hsc⟩ := List.mem_map.mp h
      have := List.mem_filter.mp hs
      exact ⟨s, this.1, by simpa using this.2, hsc⟩
    · rintro ⟨s, hs, h1, h2⟩
      exact List.mem_map.mpr ⟨s, List.mem_filter.mpr ⟨hs, by simp [h1]⟩, h2⟩
  refine ⟨?_, ?_, ?_⟩
  · intro s hs
    simp only [hooksClose] at hs
    have := (List.mem_filter.mp hs).2
    simpa using this
  · show (((db.peerChannelSubscriptions.filter
        (fun s => s.peerId != pid)).filter (fun s =>
          ((db.peerChannelSubscriptions.filter (fun t => t.peerId == pid)).map
            (fun t => t.channelId)).contains s.channelId)).filterMap _).countP
        _ = _
    rw [List.countP_filterMap, List.countP_filter, List.countP_filter]
    by_cases hpc : ∃ s ∈ db.peerChannelSubscriptions,
        s.peerId = pid ∧ s.channelId = c
    · by_cases hqc : ∃ s ∈ db.peerChannelSubscriptions,
          s.peerId = q ∧ s.channelId = c
      · rw [if_pos ⟨hqc, hpc⟩]
        rw [List.countP_congr (q := fun s =>
          decide ((s.peerId, s.channelId) = (q, c)))]
        · have hnd2 : (db.peerChannelSubscriptions.map
              (fun s => (s.peerId, s.channelId))).Nodup := hnd
          apply countP_image_eq_one (fun s => (s.peerId, s.channelId)) (q, c)
            db.peerChannelSubscriptions hnd2
          obtain ⟨s, hs, h1, h2⟩ := hqc
          exact List.mem_map.mpr ⟨s, hs, by rw [h1, h2]⟩
        · intro s hsmem
          constructor
          · intro hbig
            simp only [Bool.and_eq_true] at hbig
            obtain ⟨⟨hinner, -⟩, -⟩ := hbig
            split at hinner
            · have : s.peerId = q ∧ s.channelId = c := by
                simpa [isMemberLeaveDeliveryTo] using hinner
              simp [Prod.ext_iff, this.1, this.2]
            · cases hinner
          · intro hcore
            have hpair : s.peerId = q ∧ s.channelId = c := by
              simpa [Prod.ext_iff] using hcore
            obtain ⟨h1, h2⟩ := hpair
            have hlc : live.contains s.peerId = true := by
              rw [h1]; exact List.elem_eq_true_of_mem hqlive
            have hcont : ((db.peerChannelSubscriptions.filter
                (fun t => t.peerId == pid)).map
                  (fun t => t.channelId)).contains s.channelId = true := by
              rw [h2]; exact (hchids c).mpr hpc
            simp only [Bool.and_eq_true]
            refine ⟨⟨?_, ?_⟩, ?_⟩
            · rw [hlc]
              simp [isMemberLeaveDeliveryTo, h1, h2]
            · exact hcont
            · simp [h1, hq]
      · rw [if_neg (fun h => hqc h.1)]
        rw [List.countP_eq_zero]
        intro s hsmem hbig
        simp only [Bool.and_eq_true] at hbig
        obtain ⟨⟨hinner, -⟩, -⟩ := hbig
        split at hinner
        · have : s.peerId = q ∧ s.channelId = c := by
            simpa [isMemberLeaveDeliveryTo] using hinner
          exact hqc ⟨s, hsmem, this.1, this.2⟩
        · cases hinner
    · rw [if_neg (fun h => hpc h.2)]
      rw [List.countP_eq_zero]
      intro s hsmem hbig
      simp only [Bool.and_eq_true] at hbig
      obtain ⟨⟨hinner, hch⟩, -⟩ := hbig
      have hsc : s.channelId = c := by
        split at hinner
        · exact (by simpa [isMemberLeaveDeliveryTo] using hinner :
            s.peerId = q ∧ s.channelId = c).2
        · cases hinner
      rw [hsc] at hch
      exact hpc ((hchids c).mp hch)
  · intro d hd c2 mem heq
    obtain ⟨s, hsmem, hgs⟩ := List.mem_filterMap.mp hd
    split at hgs
    · cases hgs
      have hs1 := List.mem_filter.mp hsmem
      have hs2 := List.mem_filter.mp hs1.1
      cases heq
      exact ⟨by simpa using hs2.2, s, hs2.1, rfl, rfl⟩
    · cases hgs

/-- Witness for C5: S5 of the spec — `p1` (subscribed to `c1` and `c2`)
disconnects; co-member `p2` is counted once for `c1` and zero times for
`c2`, and `p1` has no rows left. -/
theorem c5_disconnect_reaps_subscriptions_witness :
    ((∀ s ∈ (hooksClose ["p2"] "f1" disconnectState "p1").1.peerChannelSubscriptions,
        s.peerId ≠ "p1")
      ∧ ((hooksClose ["p2"] "f1" disconnectState "p1").2.countP
            (isMemberLeaveDeliveryTo "p2" "c1")
          = if (∃ s ∈ disconnectState.peerChannelSubscriptions,
                  s.peerId = "p2" ∧ s.channelId = "c1")
              ∧ (∃ s ∈ disconnectState.peerChannelSubscriptions,
                  s.peerId = "p1" ∧ s.channelId = "c1")
            then 1 else 0)
      ∧ (∀ d ∈ (hooksClose ["p2"] "f1" disconnectState "p1").2, ∀ c2 mem,
          d.2 = Outbound.metadata "f1" (MetadataEvent.memberLeave c2 mem) →
          d.1 ≠ "p1" ∧ ∃ s ∈ disconnectState.peerChannelSubscriptions,
            s.peerId = d.1 ∧ s.channelId = c2))
    ∧ ((hooksClose ["p2"] "f1" disconnectState "p1").2.countP
          (isMemberLeaveDeliveryTo "p2" "c2")
        = if (∃ s ∈ disconnectState.peerChannelSubscriptions,
                s.peerId = "p2" ∧ s.channelId = "c2")
            ∧ (∃ s ∈ disconnectState.peerChannelSubscriptions,
                s.peerId = "p1" ∧ s.channelId = "c2")
          then 1 else 0) :=
  ⟨c5_disconnect_reaps_subscriptions ["p2"] "f1" disconnectState "p1" "p2"
      "c1" (by unfold subscriptionPairsNodup; decide) (by decide) (by decide),
    (c5_disconnect_reaps_subscriptions ["p2"] "f1" disconnectState "p1" "p2"
      "c2" (by unfold subscriptionPairsNodup; decide) (by decide)
      (by decide)).2.1⟩
